import Mathlib

/-!
Shallow embedding of the conversation-orchestration core of `app.py`
(persona interview chat application): dataset retrieval
(`tokenize_text`, `format_record_summary`, `build_dataset_context`),
turn composition (`build_user_content`), tool configuration
(`build_tool_config`), response rendering (`format_blocks_for_display`,
`extract_tool_summary`), and the per-turn session state machine of
`main` (prompt submission, clear conversation, back to personas).
Python strings are Lean `String`s restricted to their code-point
content; `dict.get` on optional fields is `Option String`; Python
truthiness of a string value (`None` and `""` are falsy) is made
explicit.
-/

namespace App

/-- Python truthiness of an optional string: `None` and `""` are falsy. -/
def pyTruthy (o : Option String) : Bool :=
  match o with
  | some s => s ≠ ""
  | none => false

/-- Python `a or b` for an optional string `a` and a string default `b`:
returns the value of `a` when truthy, else `b`. -/
def pyOrS (o : Option String) (b : String) : String :=
  match o with
  | some s => if s = "" then b else s
  | none => b

/-- `\w` of the tokenizer regex on the character fragment used in this
development: ASCII letters, digits and underscore, plus the letters of
the Latin-1 Supplement (U+00C0–U+00FF minus the multiplication and
division signs; this range contains `'ß'`). Non-ASCII word characters
outside this fragment (e.g. `µ`, superscript digits, letters beyond
Latin-1) are not modelled. -/
def isWordChar (c : Char) : Bool :=
  c.isAlphanum || c = '_' ||
    (0xC0 ≤ c.toNat && c.toNat ≤ 0xFF && c.toNat ≠ 0xD7 && c.toNat ≠ 0xF7)

/-- Maximal word-character runs: helper walking the characters while
carrying the current (possibly empty) run. -/
def wordRunsAux : List Char → List Char → List String
  | [], acc => if acc.isEmpty then [] else [String.mk acc]
  | c :: cs, acc =>
    if isWordChar c then wordRunsAux cs (acc ++ [c])
    else (if acc.isEmpty then [] else [String.mk acc]) ++ wordRunsAux cs []

/-- Maximal runs of word characters of a character list, as strings:
the matches of `re.findall(r"\b\w+\b", ...)` in `tokenize_text` (a
maximal `\w+` run always sits between word boundaries). -/
def wordRuns (l : List Char) : List String :=
  wordRunsAux l []

/-- `tokenize_text(text)`: empty text gives no tokens, otherwise the
lowercased text is split into word-character runs. -/
def tokenize_text (s : String) : List String :=
  if s = "" then [] else wordRuns (s.data.map Char.toLower)

/-- A row of the internal dataset: the five recognized optional string
fields of a record (`record.get(field)`). -/
structure Record where
  source : Option String := none
  category : Option String := none
  customer_insights : Option String := none
  remark : Option String := none
  details : Option String := none
deriving DecidableEq, Repr

/-- `format_record_summary(record)`: compact one-line summary, skipping
falsy fields, joined by `" | "`. -/
def format_record_summary (r : Record) : String :=
  let parts :=
    (if pyTruthy r.source then
      [if pyTruthy r.category then
        r.source.getD "" ++ " [" ++ r.category.getD "" ++ "]"
      else r.source.getD ""]
     else []) ++
    (if pyTruthy r.customer_insights then
      ["Key insight: " ++ r.customer_insights.getD ""] else []) ++
    (if pyTruthy r.remark then ["Notes: " ++ r.remark.getD ""] else []) ++
    (if pyTruthy r.details then ["Details: " ++ r.details.getD ""] else [])
  String.intercalate " | " parts

/-- The record's searchable haystack: the five fields (absent ⇒ `""`)
joined by single spaces, in the order used by `build_dataset_context`. -/
def recordHaystack (r : Record) : String :=
  String.intercalate " "
    [r.source.getD "", r.category.getD "", r.details.getD "",
     r.customer_insights.getD "", r.remark.getD ""]

/-- Score of a record: number of distinct query tokens that occur in
the record's token set (`queryTerms` is already deduplicated). -/
def scoreRecord (queryTerms : List String) (r : Record) : Nat :=
  (queryTerms.filter (fun t => (tokenize_text (recordHaystack r)).contains t)).length

/-- Stable descending insertion by score: models one step of Python's
stable `list.sort(key=score, reverse=True)`. An element is placed
before the first element whose score is not larger, so earlier elements
win ties. -/
def insertByScoreDesc (x : Nat × Record) : List (Nat × Record) → List (Nat × Record)
  | [] => [x]
  | y :: ys => if y.1 ≤ x.1 then x :: y :: ys else y :: insertByScoreDesc x ys

/-- Stable sort by score descending, modelling
`scored_records.sort(key=lambda item: item[0], reverse=True)`. -/
def sortByScoreDesc : List (Nat × Record) → List (Nat × Record)
  | [] => []
  | x :: xs => insertByScoreDesc x (sortByScoreDesc xs)

/-- The scored candidate list of `build_dataset_context`: each record
paired with its score, retained when the score is positive or the
query has no tokens. -/
def scoredCandidates (query : String) (dataset : List Record) : List (Nat × Record) :=
  let queryTerms := (tokenize_text query).dedup
  dataset.filterMap fun r =>
    let score := scoreRecord queryTerms r
    if 0 < score || queryTerms.isEmpty then some (score, r) else none

/-- The final record pick from the sorted candidates: positively
scored records, top `limit`; when that is empty, fall back to the
single best-sorted record. -/
def pickTop (limit : Nat) : List (Nat × Record) → List Record
  | [] => []
  | best :: rest =>
    let top := (((best :: rest).filter fun p => 0 < p.1).map Prod.snd).take limit
    if top.isEmpty then [best.2] else top

/-- The records selected by `build_dataset_context`: score, filter,
stable-sort descending, then pick. -/
def selectRecords (query : String) (dataset : List Record) (limit : Nat) : List Record :=
  if dataset.isEmpty then []
  else pickTop limit (sortByScoreDesc (scoredCandidates query dataset))

/-- The non-empty record summaries of the selected records: each one
becomes one `- `-prefixed line of the rendered context. -/
def contextLines (query : String) (dataset : List Record) (limit : Nat) : List String :=
  ((selectRecords query dataset limit).map format_record_summary).filter (fun s => s ≠ "")

/-- `build_dataset_context(query, dataset, limit)`: rendered dataset
excerpt lines joined by newlines. -/
def build_dataset_context (query : String) (dataset : List Record) (limit : Nat) : String :=
  String.intercalate "\n" ((contextLines query dataset limit).map (fun s => "- " ++ s))

/-- `MAX_INTERNAL_CONTEXT_ROWS`, the default `limit`. -/
def MAX_INTERNAL_CONTEXT_ROWS : Nat := 4

/-- A citation attached to a text block: the three optional string
fields read by `format_blocks_for_display`. -/
structure Citation where
  title : Option String := none
  url : Option String := none
  cited_text : Option String := none
deriving DecidableEq, Repr

/-- An item of a `web_search_tool_result` content list: the fields read
from it (`type`, `title`, `url`). -/
structure SearchHit where
  rtype : Option String := none
  title : Option String := none
  url : Option String := none
deriving DecidableEq, Repr

/-- A dict entry of `web_fetch_tool_result` content: its `type`,
whether/which `error_code` it carries, its `url`, and the `title` of its
nested content dict when that is a dict carrying one. -/
structure FetchEntry where
  etype : Option String := none
  errorCode : Option String := none
  url : Option String := none
  docTitle : Option String := none
deriving DecidableEq, Repr

/-- The `content` value of a `web_search_tool_result` block: a dict
(with its `type` and optional `error_code`) or a list of result items;
a missing key defaults to the empty list. -/
inductive SearchContent where
  | dict (ctype : Option String) (errorCode : Option String)
  | list (items : List SearchHit)
deriving DecidableEq, Repr

/-- The `content` value of a `web_fetch_tool_result` block: absent (or
of an unrecognized shape), a single dict entry, or a list of dict
entries. -/
inductive FetchContent where
  | absent
  | dict (e : FetchEntry)
  | list (items : List FetchEntry)
deriving DecidableEq, Repr

/-- A structured response content block, covering exactly the shapes
`format_blocks_for_display` and `extract_tool_summary` discriminate on.
`other` carries the block's `type` value and its JSON dump (the result
of `json.dumps(block)`), which the code treats opaquely. -/
inductive Block where
  | text (text : String) (citations : List Citation)
  | thinking
  | redactedThinking
  | serverToolUse (name : Option String) (inputQuery : Option String) (inputUrl : Option String)
  | webSearchToolResult (content : SearchContent)
  | webFetchToolResult (content : FetchContent)
  | other (btype : Option String) (dump : String)
deriving DecidableEq, Repr

/-- `build_user_content(prompt, dataset, datetime_context)`: time block
(when given), dataset-excerpt block (when the rendered context is
non-empty), then the raw prompt, in that order. -/
def build_user_content (prompt : String) (dataset : List Record)
    (datetime_context : Option String) : List Block :=
  (if pyTruthy datetime_context then
    [Block.text
      ("User time context:\n" ++ datetime_context.getD "" ++
        "\nTreat timestamps as the user's current local view.")
      []]
   else []) ++
  (let context := build_dataset_context prompt dataset MAX_INTERNAL_CONTEXT_ROWS
   if context ≠ "" then
    [Block.text
      ("Internal dataset excerpts (Honda Data Sources workbook):\n" ++ context ++
        "\nUse this structured context when forming your answer.")
      []]
   else []) ++
  [Block.text prompt []]

/-- A server-side tool descriptor: the dict fields assembled by
`build_tool_config`; `citationsEnabled = some true` models the presence
of `"citations": {"enabled": True}`. -/
structure ToolSpec where
  ttype : String
  name : String
  max_uses : Nat
  citationsEnabled : Option Bool := none
deriving DecidableEq, Repr

def WEB_SEARCH_TOOL_TYPE : String := "web_search_20250305"

def WEB_FETCH_TOOL_TYPE : String := "web_fetch_20250910"

def DEFAULT_WEB_SEARCH_MAX_USES : Nat := 10

def DEFAULT_WEB_FETCH_MAX_USES : Nat := 10

/-- `build_tool_config(enable_web_search, enable_web_fetch)`. -/
def build_tool_config (enable_web_search enable_web_fetch : Bool) : List ToolSpec :=
  (if enable_web_search then
    [{ ttype := WEB_SEARCH_TOOL_TYPE, name := "web_search",
       max_uses := DEFAULT_WEB_SEARCH_MAX_USES }]
   else []) ++
  (if enable_web_fetch then
    [{ ttype := WEB_FETCH_TOOL_TYPE, name := "web_fetch",
       max_uses := DEFAULT_WEB_FETCH_MAX_USES, citationsEnabled := some true }]
   else [])

/-- Python `str.strip()` (ASCII-whitespace fragment): drop leading and
trailing whitespace characters. -/
def pyStrip (s : String) : String :=
  String.mk (((s.data.dropWhile Char.isWhitespace).reverse.dropWhile Char.isWhitespace).reverse)

/-- One bulleted citation line: `title` falls back to `url` then to
`"Source"`; a truthy `url` turns the line into a markdown link; a
truthy `cited_text` is appended after an em dash. -/
def citationLine (c : Citation) : String :=
  let title := pyOrS c.title (pyOrS c.url "Source")
  let line := "- " ++ title
  let line := if pyTruthy c.url then "- [" ++ title ++ "](" ++ c.url.getD "" ++ ")" else line
  if pyTruthy c.cited_text then line ++ " — " ++ c.cited_text.getD "" else line

/-- The display segment of a `text` block: its text with a
`**Citations:**` section appended when citations are present, stripped. -/
def textSegment (text : String) (citations : List Citation) : String :=
  pyStrip
    (if citations.isEmpty then text
     else text ++ "\n\n**Citations:**\n" ++ String.intercalate "\n" (citations.map citationLine))

/-- The entries of a `web_fetch_tool_result` content value, as
normalized by the code (dict ⇒ singleton, list ⇒ its dict items,
anything else ⇒ none). -/
def fetchEntries : FetchContent → List FetchEntry
  | .absent => []
  | .dict e => [e]
  | .list items => items

/-- Is a fetch entry an error entry (`type` in the error set, or no
`type` but an `error_code` key)? -/
def isFetchError (e : FetchEntry) : Bool :=
  e.etype = some "web_fetch_tool_result_error" || e.etype = some "web_fetch_tool_error" ||
    (e.etype = none && e.errorCode ≠ none)

/-- The `type` value rendered by the unknown-block branch (`None` when
the key is absent, as Python formats it). -/
def btypeStr (o : Option String) : String :=
  match o with
  | some s => s
  | none => "None"

/-- The ordered display segments collected by
`format_blocks_for_display` before joining. -/
def displaySegments : List Block → List String
  | [] => []
  | b :: bs =>
    (match b with
     | .thinking => []
     | .redactedThinking => []
     | .text t cs => [textSegment t cs]
     | .serverToolUse _ _ _ => []
     | .webSearchToolResult c =>
       match c with
       | .dict ctype errorCode =>
         if ctype = some "web_search_tool_result_error" then
           ["⚠️ Web search error: " ++ errorCode.getD "unknown error"]
         else []
       | .list _ => []
     | .webFetchToolResult c =>
       (fetchEntries c).filterMap fun e =>
         if isFetchError e then some ("⚠️ Web fetch error: " ++ e.errorCode.getD "unknown error")
         else none
     | .other btype dump => ["_" ++ btypeStr btype ++ ": " ++ dump ++ "_"]) ++
    displaySegments bs

/-- The joined-and-trimmed display body, before the empty fallback. -/
def displayBody (blocks : List Block) : String :=
  pyStrip (String.intercalate "\n\n" ((displaySegments blocks).filter (fun s => s ≠ "")))

/-- `format_blocks_for_display(blocks)`. -/
def format_blocks_for_display (blocks : List Block) : String :=
  if displayBody blocks = "" then "_The assistant returned no readable content._"
  else displayBody blocks

/-- `extract_tool_summary(blocks)`: sidebar summary of tool usage. -/
def extract_tool_summary (blocks : List Block) : String :=
  let summaries := blocks.filterMap fun b =>
    match b with
    | .serverToolUse name q u =>
      if name = some "web_search" then
        if pyTruthy q then some ("Web search: " ++ q.getD "") else none
      else if name = some "web_fetch" then
        if pyTruthy u then some ("Web fetch: " ++ u.getD "") else none
      else none
    | _ => none
  let searchResults := blocks.flatMap fun b =>
    match b with
    | .webSearchToolResult (.list items) =>
      (items.take 5).filterMap fun it =>
        if it.rtype = some "web_search_result" then
          some (pyOrS it.title "Search result", it.url)
        else none
    | _ => []
  let fetchResults := blocks.flatMap fun b =>
    match b with
    | .webFetchToolResult c =>
      ((fetchEntries c).take 3).map fun it => (pyOrS it.docTitle "Fetched document", it.url)
    | _ => []
  let linkLine := fun (p : String × Option String) =>
    if pyTruthy p.2 then "- [" ++ p.1 ++ "](" ++ p.2.getD "" ++ ")" else "- " ++ p.1
  let lines :=
    (if summaries.isEmpty then []
     else "**Research actions**" :: summaries.map (fun e => "- " ++ e)) ++
    (if searchResults.isEmpty then [] else "**Search hits**" :: searchResults.map linkLine) ++
    (if fetchResults.isEmpty then [] else "**Fetched docs**" :: fetchResults.map linkLine)
  String.intercalate "\n" lines

/-- How a backend call of one user turn ends: a structured success, or
one of the four caught failure categories of `main`'s try/except. -/
inductive Outcome where
  | success (blocks : List Block)
  | rateLimit
  | statusError (code : Nat) (msg : String)
  | apiFailure (msg : String)
  | unexpectedFailure (msg : String)
deriving DecidableEq, Repr

/-- The assistant reply text produced for an outcome, before the
empty-reply fallback. -/
def replyFor : Outcome → String
  | .success blocks => format_blocks_for_display blocks
  | .rateLimit => "⚠️ Rate limit reached. Please wait a moment before trying again."
  | .statusError code msg => "API error " ++ toString code ++ ": " ++ msg
  | .apiFailure msg => "Unexpected API error: " ++ msg
  | .unexpectedFailure msg => "Unhandled error while calling the assistant: " ++ msg

/-- The tool summary stored for an outcome: computed on success, left
`""` by every failure path. -/
def toolSummaryFor : Outcome → String
  | .success blocks => extract_tool_summary blocks
  | _ => ""

/-- A display-history turn (`st.session_state.messages` entry). -/
structure DisplayMessage where
  role : String
  content : String
deriving DecidableEq, Repr

/-- An API-history turn (`st.session_state.api_messages` entry). -/
structure ApiMessage where
  role : String
  content : List Block
deriving DecidableEq, Repr

/-- The session state mutated by `main`: the two parallel histories,
the last tool summary, the active persona, and the two transient keys
popped by the reset actions (absence modelled as `none` / `false`). -/
structure SessionState where
  messages : List DisplayMessage := []
  api_messages : List ApiMessage := []
  last_tool_summary : String := ""
  selected_persona_id : Option String := none
  pending_prompt : Option String := none
  suggested_hidden : Bool := false
deriving DecidableEq, Repr

/-- Selecting a persona: set it and clear histories and summary. -/
def select_persona (s : SessionState) (p : String) : SessionState :=
  { s with selected_persona_id := some p, messages := [], api_messages := [],
           last_tool_summary := "" }

/-- The "Clear conversation" button: clear histories, summary, and the
two transient keys; the active persona is untouched. -/
def reset_conversation (s : SessionState) : SessionState :=
  { s with messages := [], api_messages := [], last_tool_summary := "",
           pending_prompt := none, suggested_hidden := false }

/-- The "Back to Personas" button: clear histories and summary and
deselect the persona. -/
def deselect_persona (s : SessionState) : SessionState :=
  { s with selected_persona_id := none, messages := [], api_messages := [],
           last_tool_summary := "" }

/-- The displayed reply for an outcome, after the
`reply or "empty response"` fallback of `main`. -/
def finalReply (outcome : Outcome) : String :=
  if replyFor outcome = "" then "_The assistant returned an empty response._"
  else replyFor outcome

/-- The assistant entry appended to the API history: the response
blocks when present, else a single text block holding the reply (also
the shape used by every failure path). -/
def assistantApiContent (outcome : Outcome) : List Block :=
  match outcome with
  | .success blocks => if blocks.isEmpty then [Block.text (finalReply outcome) []] else blocks
  | _ => [Block.text (finalReply outcome) []]

/-- One completed user turn of `main`: append the user's display and
API entries, then the assistant's display and API entries for the
outcome, and store the turn's tool summary. -/
def submit_prompt (s : SessionState) (prompt : String) (dataset : List Record)
    (time_context : Option String) (outcome : Outcome) : SessionState :=
  { s with
    messages := s.messages ++
      [⟨"user", prompt⟩, ⟨"assistant", finalReply outcome⟩],
    api_messages := s.api_messages ++
      [⟨"user", build_user_content prompt dataset time_context⟩,
       ⟨"assistant", assistantApiContent outcome⟩],
    last_tool_summary := toolSummaryFor outcome,
    suggested_hidden := true }

/-- Python `str.upper()` of one character, on the character fragment
used in this development: ASCII letters upper-case within ASCII, and
the sharp s `'ß'` expands to the two characters `"SS"` (the Unicode
special casing Python applies). Other Latin-1 lower-case letters are
outside the modelled fragment and left unchanged. -/
def pyUpperChar (c : Char) : List Char :=
  if c = 'ß' then ['S', 'S'] else [c.toUpper]

/-- Python `str.upper()` of a string: the query's "converted to upper
case" transformation quantified over by the case-invariance
property. -/
def pyUpper (s : String) : String :=
  String.mk (s.data.flatMap pyUpperChar)

/-- A concrete dataset record whose only field is `source = "alpha"`. -/
def recA : Record := { source := some "alpha" }

/-- A concrete dataset record whose only field is the non-ASCII
`source = "ß"`. -/
def recSharpS : Record := { source := some "ß" }

/-- A concrete dataset record whose only field is `source = "beta"`. -/
def recB : Record := { source := some "beta" }

/-- A concrete session state used to witness C9: persona `"priya"`
active, one display turn recorded. -/
def sampleState : SessionState := {
  selected_persona_id := some "priya",
  messages := [⟨"user", "hi"⟩],
  last_tool_summary := "sum" }

/-! ## Helper lemmas -/

/-- Blocks that are entirely reasoning blocks contribute no display
segments. -/
theorem displaySegments_of_reasoning (blocks : List Block)
    (h : ∀ b ∈ blocks, b = Block.thinking ∨ b = Block.redactedThinking) :
    displaySegments blocks = [] := by
  induction blocks with
  | nil => rfl
  | cons b bs ih =>
    rcases h b (List.mem_cons_self b bs) with hb | hb <;>
      subst hb <;>
      simpa [displaySegments] using ih fun x hx => h x (List.mem_cons_of_mem _ hx)

/-- `Char.ofNat` of a valid code point has that code point. -/
theorem char_toNat_ofNat_of_valid (n : Nat) (h : Nat.isValidChar n) :
    (Char.ofNat n).toNat = n := by
  unfold Char.ofNat
  rw [dif_pos h]
  rfl

/-- ASCII lower-casing after upper-casing agrees with lower-casing. -/
theorem toLower_toUpper (c : Char) : c.toUpper.toLower = c.toLower := by
  unfold Char.toUpper Char.toLower
  by_cases h : c.toNat ≥ 97 ∧ c.toNat ≤ 122
  · rw [if_pos h]
    have hv : Nat.isValidChar (c.toNat - 32) := Or.inl (by omega)
    have ht : (Char.ofNat (c.toNat - 32)).toNat = c.toNat - 32 :=
      char_toNat_ofNat_of_valid _ hv
    rw [ht, if_pos (by omega : c.toNat - 32 ≥ 65 ∧ c.toNat - 32 ≤ 90),
      if_neg (by omega : ¬(c.toNat ≥ 65 ∧ c.toNat ≤ 90)),
      (by omega : c.toNat - 32 + 32 = c.toNat), Char.ofNat_toNat]
  · rw [if_neg h]

/-- Lower-casing a character list is unchanged by first upper-casing. -/
theorem map_toLower_toUpper (l : List Char) :
    (l.map Char.toUpper).map Char.toLower = l.map Char.toLower := by
  rw [List.map_map]
  exact List.map_congr_left fun c _ => toLower_toUpper c

/-- On ASCII characters, Python upper-casing is the per-character
ASCII upper-casing. -/
theorem pyUpper_data_of_ascii (l : List Char) (h : ∀ c ∈ l, c.toNat ≤ 127) :
    l.flatMap pyUpperChar = l.map Char.toUpper := by
  induction l with
  | nil => rfl
  | cons c cs ih =>
    have hc : c ≠ 'ß' := by
      intro he
      exact absurd (he ▸ h c (List.mem_cons_self c cs)) (by decide)
    simp [List.flatMap_cons, pyUpperChar, hc,
      ih fun x hx => h x (List.mem_cons_of_mem _ hx)]

/-- Tokenization is invariant under upper-casing an ASCII query. -/
theorem tokenize_pyUpper (q : String) (h : ∀ c ∈ q.data, c.toNat ≤ 127) :
    tokenize_text (pyUpper q) = tokenize_text q := by
  have hdata : (pyUpper q).data = q.data.map Char.toUpper :=
    pyUpper_data_of_ascii q.data h
  by_cases hq : q = ""
  · subst hq
    rfl
  · have h2 : pyUpper q ≠ "" := by
      intro hEq
      apply hq
      have hd : q.data.map Char.toUpper = [] := by
        rw [← hdata, hEq]
      cases q with
      | mk l =>
        have : l = [] := by simpa using hd
        rw [this]
    simp only [tokenize_text, if_neg hq, if_neg h2]
    rw [hdata, map_toLower_toUpper]

/-- Inserting a zero-scored pair into a list of zero-scored pairs puts
it in front. -/
theorem insertByScoreDesc_zeros (r : Record) (rs : List Record) :
    insertByScoreDesc (0, r) (rs.map fun x => (0, x)) =
      (0, r) :: rs.map fun x => (0, x) := by
  cases rs <;> simp [insertByScoreDesc]

/-- Sorting a list of zero-scored pairs leaves it unchanged. -/
theorem sortByScoreDesc_zeros (l : List Record) :
    sortByScoreDesc (l.map fun r => (0, r)) = l.map fun r => (0, r) := by
  induction l with
  | nil => rfl
  | cons r rs ih =>
    simp only [List.map_cons, sortByScoreDesc, ih]
    exact insertByScoreDesc_zeros r rs

/-- With a tokenless query every record becomes a zero-scored
candidate. -/
theorem scoredCandidates_no_tokens (q : String) (l : List Record)
    (hq : tokenize_text q = []) :
    scoredCandidates q l = l.map fun x => (0, x) := by
  unfold scoredCandidates
  rw [hq]
  induction l with
  | nil => rfl
  | cons a as ih =>
    simpa [List.filterMap_cons, scoreRecord, List.dedup_nil] using ih

/-! ## Claim theorems -/

/-- C6: `build_tool_config` returns one descriptor per enabled flag —
the search descriptor named `web_search` and the fetch descriptor named
`web_fetch`, each capped at 10 uses, with only the fetch descriptor
requesting citation annotations — and the empty list when both flags
are false. -/
theorem build_tool_config_spec :
    ∀ es ef : Bool,
      build_tool_config false false = [] ∧
      (build_tool_config es ef).length = (cond es 1 0) + (cond ef 1 0) ∧
      (∀ t ∈ build_tool_config es ef, t.max_uses = 10) ∧
      ((∃ t ∈ build_tool_config es ef, t.name = "web_search") ↔ es = true) ∧
      ((∃ t ∈ build_tool_config es ef, t.name = "web_fetch") ↔ ef = true) ∧
      (∀ t ∈ build_tool_config es ef, (t.citationsEnabled = some true ↔ t.name = "web_fetch")) := by
  decide

/-- C9: with an active persona `p`, "Clear conversation" empties both
histories and the source summary but keeps `p` active, while "Back to
Personas" empties them and additionally clears the active persona. -/
theorem reset_vs_deselect (s : SessionState) (p : String)
    (h : s.selected_persona_id = some p) :
    (reset_conversation s).messages = [] ∧
    (reset_conversation s).api_messages = [] ∧
    (reset_conversation s).last_tool_summary = "" ∧
    (reset_conversation s).selected_persona_id = some p ∧
    (deselect_persona s).messages = [] ∧
    (deselect_persona s).api_messages = [] ∧
    (deselect_persona s).last_tool_summary = "" ∧
    (deselect_persona s).selected_persona_id = none := by
  simp [reset_conversation, deselect_persona, h]

/-- C9 witness at a concrete state with persona `"priya"`. -/
theorem reset_vs_deselect_wit :
    (reset_conversation sampleState).selected_persona_id = some "priya" ∧
    (reset_conversation sampleState).messages = [] ∧
    (deselect_persona sampleState).selected_persona_id = none ∧
    (deselect_persona sampleState).messages = [] :=
  ⟨(reset_vs_deselect sampleState "priya" rfl).2.2.2.1,
   (reset_vs_deselect sampleState "priya" rfl).1,
   (reset_vs_deselect sampleState "priya" rfl).2.2.2.2.2.2.2,
   (reset_vs_deselect sampleState "priya" rfl).2.2.2.2.1⟩

/-- C7: `format_blocks_for_display` on a sequence of reasoning-only
blocks returns the fixed no-readable-content placeholder; more
generally whenever the joined display body is empty it returns the
placeholder, and it never returns an empty string. -/
theorem format_blocks_placeholder (blocks : List Block) :
    ((∀ b ∈ blocks, b = Block.thinking ∨ b = Block.redactedThinking) →
      format_blocks_for_display blocks = "_The assistant returned no readable content._") ∧
    (displayBody blocks = "" →
      format_blocks_for_display blocks = "_The assistant returned no readable content._") ∧
    format_blocks_for_display blocks ≠ "" := by
  refine ⟨fun h => ?_, fun h => by simp [format_blocks_for_display, h], ?_⟩
  · have hseg := displaySegments_of_reasoning blocks h
    have hb : displayBody blocks = "" := by
      simp only [displayBody, hseg, List.filter_nil]
      decide
    simp [format_blocks_for_display, hb]
  · unfold format_blocks_for_display
    split
    · decide
    · assumption

/-- C7 witness: a single `thinking` block yields the placeholder. -/
theorem format_blocks_placeholder_wit :
    format_blocks_for_display [Block.thinking] =
      "_The assistant returned no readable content._" :=
  (format_blocks_placeholder [Block.thinking]).1 (by decide)

/-- C5: with no time context and a dataset yielding empty context,
`build_user_content` produces exactly one content block whose text is
the raw prompt; and in general the last block is always the raw
prompt (blocks in fixed order, omitted ones absent). -/
theorem build_user_content_blocks :
    ∀ (prompt : String) (dataset : List Record),
      (build_dataset_context prompt dataset MAX_INTERNAL_CONTEXT_ROWS = "" →
        build_user_content prompt dataset none = [Block.text prompt []]) ∧
      ∀ dtc : Option String,
        (build_user_content prompt dataset dtc).getLast? = some (Block.text prompt []) := by
  intro prompt dataset
  constructor
  · intro h
    simp [build_user_content, pyTruthy, h]
  · intro dtc
    show (_ ++ _ ++ [Block.text prompt []]).getLast? = some (Block.text prompt [])
    exact List.getLast?_concat _

/-- C5 witness: prompt `"hi"` against the empty dataset. -/
theorem build_user_content_blocks_wit :
    build_user_content "hi" [] none = [Block.text "hi" []] :=
  (build_user_content_blocks "hi" []).1 (by decide)

/-- C8: a text block with a non-empty citation list renders a
`**Citations:**` section after the text, one bulleted line per
citation; a citation line links `[title](url)` when a url is present
(with ` — cited_text` appended when present), the title falls back to
the url and then to `"Source"`, and the citation
`{title: "Foo", url: "http://x"}` yields `[Foo](http://x)`. -/
theorem citations_rendering :
    ∀ (t : String) (cs : List Citation), cs ≠ [] →
      (textSegment t cs =
        pyStrip (t ++ "\n\n**Citations:**\n" ++
          String.intercalate "\n" (cs.map citationLine))) ∧
      (∀ title url : String, title ≠ "" → url ≠ "" →
        citationLine ⟨some title, some url, none⟩ =
          "- [" ++ title ++ "](" ++ url ++ ")") ∧
      (∀ title url cited : String, title ≠ "" → url ≠ "" → cited ≠ "" →
        citationLine ⟨some title, some url, some cited⟩ =
          "- [" ++ title ++ "](" ++ url ++ ")" ++ " — " ++ cited) ∧
      (∀ url : String, url ≠ "" →
        citationLine ⟨none, some url, none⟩ = "- [" ++ url ++ "](" ++ url ++ ")") ∧
      citationLine ⟨none, none, none⟩ = "- Source" ∧
      format_blocks_for_display [Block.text "Hello" [⟨some "Foo", some "http://x", none⟩]] =
        "Hello\n\n**Citations:**\n- [Foo](http://x)" := by
  intro t cs hcs
  refine ⟨?_, ?_, ?_, ?_, by decide, by decide⟩
  · cases cs with
    | nil => exact absurd rfl hcs
    | cons c cs => simp [textSegment]
  · intro title url ht hu
    simp [citationLine, pyOrS, pyTruthy, ht, hu]
  · intro title url cited ht hu hc
    simp [citationLine, pyOrS, pyTruthy, ht, hu, hc]
  · intro url hu
    simp [citationLine, pyOrS, pyTruthy, hu]

/-- C8 witness at the concrete block `{text: "Hello",
citations: [{title: "Foo", url: "http://x"}]}`. -/
theorem citations_rendering_wit :
    citationLine ⟨some "Foo", some "http://x", none⟩ = "- [Foo](http://x)" ∧
    format_blocks_for_display [Block.text "Hello" [⟨some "Foo", some "http://x", none⟩]] =
      "Hello\n\n**Citations:**\n- [Foo](http://x)" :=
  ⟨(citations_rendering "Hello" [⟨some "Foo", some "http://x", none⟩]
      (by decide)).2.1 "Foo" "http://x" (by decide) (by decide),
   (citations_rendering "Hello" [⟨some "Foo", some "http://x", none⟩]
      (by decide)).2.2.2.2.2⟩

/-- C3: a completed user turn — for every outcome, success or any
caught failure — appends exactly one display and one API entry for the
user prompt and one of each for the assistant reply, so the histories
keep equal lengths and the last display entry's role is `assistant`. -/
theorem submit_prompt_turn_invariant (s : SessionState) (prompt : String)
    (dataset : List Record) (time_context : Option String) (o : Outcome)
    (h : s.messages.length = s.api_messages.length) :
    (submit_prompt s prompt dataset time_context o).messages =
      s.messages ++ [⟨"user", prompt⟩, ⟨"assistant", finalReply o⟩] ∧
    (submit_prompt s prompt dataset time_context o).api_messages =
      s.api_messages ++
        [⟨"user", build_user_content prompt dataset time_context⟩,
         ⟨"assistant", assistantApiContent o⟩] ∧
    (submit_prompt s prompt dataset time_context o).messages.length =
      (submit_prompt s prompt dataset time_context o).api_messages.length ∧
    (submit_prompt s prompt dataset time_context o).messages.getLast?.map
      DisplayMessage.role = some "assistant" := by
  refine ⟨rfl, rfl, ?_, ?_⟩
  · simp [submit_prompt, h]
  · show ((s.messages ++ [_, _]).getLast?).map _ = _
    rw [show s.messages ++ [(⟨"user", prompt⟩ : DisplayMessage),
          ⟨"assistant", finalReply o⟩] =
        (s.messages ++ [⟨"user", prompt⟩]) ++ [⟨"assistant", finalReply o⟩] by
      simp]
    rw [List.getLast?_concat]
    rfl

/-- C3 witness: a rate-limited turn from the empty session state. -/
theorem submit_prompt_turn_invariant_wit :
    (submit_prompt {} "hi" [] none Outcome.rateLimit).messages.length =
      (submit_prompt {} "hi" [] none Outcome.rateLimit).api_messages.length ∧
    (submit_prompt {} "hi" [] none Outcome.rateLimit).messages.getLast?.map
      DisplayMessage.role = some "assistant" :=
  ⟨(submit_prompt_turn_invariant {} "hi" [] none Outcome.rateLimit rfl).2.2.1,
   (submit_prompt_turn_invariant {} "hi" [] none Outcome.rateLimit rfl).2.2.2⟩

/-- C1 counterexample: dataset `[{source: "alpha"}]` is non-empty, the
query `"beta"` has one token, no record scores above zero, and the
record's rendered summary is the non-empty `"alpha"` — yet
`build_dataset_context` returns the empty string, not that record's
summary. -/
theorem sparse_query_fallback_cex :
    tokenize_text "beta" = ["beta"] ∧
    scoreRecord ((tokenize_text "beta").dedup) recA = 0 ∧
    format_record_summary recA = "alpha" ∧
    build_dataset_context "beta" [recA] 4 = "" ∧
    build_dataset_context "beta" [recA] 4 ≠ "- alpha" := by
  decide

/-- C1 amended: when the query has at least one token and no record
scores above zero, `build_dataset_context` returns the empty string
(records are only retained when their score is positive, so the
highest-scoring-record fallback is never reached in this case). -/
theorem sparse_query_context_empty (query : String) (dataset : List Record) (limit : Nat)
    (hq : tokenize_text query ≠ [])
    (h0 : ∀ r ∈ dataset, scoreRecord ((tokenize_text query).dedup) r = 0) :
    build_dataset_context query dataset limit = "" := by
  have hsel : selectRecords query dataset limit = [] := by
    unfold selectRecords
    by_cases hd : dataset.isEmpty
    · rw [if_pos hd]
    · rw [if_neg hd]
      have hqt : ((tokenize_text query).dedup).isEmpty = false := by
        simp [List.isEmpty_iff, List.dedup_eq_nil, hq]
      have hsc : scoredCandidates query dataset = [] := by
        unfold scoredCandidates
        rw [List.filterMap_eq_nil_iff]
        intro r hr
        simp [h0 r hr, hqt]
      rw [hsc]
      rfl
  unfold build_dataset_context contextLines
  rw [hsel]
  rfl

/-- C1 amended witness: query `"beta"` against `[{source: "alpha"}]`. -/
theorem sparse_query_context_empty_wit :
    build_dataset_context "beta" [recA] 4 = "" :=
  sparse_query_context_empty "beta" [recA] 4 (by decide)
    (by intro r hr; simp at hr; subst hr; decide)

/-- C2 counterexample: the empty query against the two-record dataset
`[{source: "alpha"}, {source: "beta"}]` with limit 4 returns only the
first record's summary, not the summaries of the first `limit`
records. -/
theorem empty_query_first_limit_cex :
    build_dataset_context "" [recA, recB] 4 = "- alpha" ∧
    build_dataset_context "" [recA, recB] 4 ≠ "- alpha\n- beta" := by
  decide

/-- C2 amended: when the query tokenizes to no tokens, every record is
kept with score zero, the positive-score filter empties the selection,
and the fallback selects exactly the first record of the dataset (so
the context is that single record's summary line, not the first
`limit` records). -/
theorem empty_query_selects_first_record (q : String) (r : Record)
    (rest : List Record) (limit : Nat) (hq : tokenize_text q = []) :
    selectRecords q (r :: rest) limit = [r] ∧
    build_dataset_context q (r :: rest) limit =
      (if format_record_summary r = "" then ""
       else "- " ++ format_record_summary r) := by
  have hsel : selectRecords q (r :: rest) limit = [r] := by
    unfold selectRecords
    rw [if_neg (by simp), scoredCandidates_no_tokens q (r :: rest) hq,
      sortByScoreDesc_zeros (r :: rest)]
    show pickTop limit ((0, r) :: rest.map fun x => (0, x)) = [r]
    simp only [pickTop]
    have hf : (((0, r) :: rest.map fun x => (0, x)).filter fun p => 0 < p.1) = [] := by
      rw [List.filter_eq_nil_iff]
      intro p hp
      rcases List.mem_cons.mp hp with rfl | hmem
      · simp
      · obtain ⟨x, _, rfl⟩ := List.mem_map.mp hmem
        simp
    rw [hf]
    simp
  refine ⟨hsel, ?_⟩
  unfold build_dataset_context contextLines
  rw [hsel]
  by_cases hs : format_record_summary r = ""
  · rw [if_pos hs]
    simp only [List.map_cons, List.map_nil, List.filter_cons, hs]
    rfl
  · rw [if_neg hs]
    simp only [List.map_cons, List.map_nil, List.filter_cons,
      decide_eq_true_eq, ne_eq, hs, not_false_eq_true, if_pos]
    rfl

/-- C2 amended witness: empty query against the two-record dataset. -/
theorem empty_query_selects_first_record_wit :
    selectRecords "" [recA, recB] 4 = [recA] ∧
    build_dataset_context "" [recA, recB] 4 = "- alpha" := by
  have h := empty_query_selects_first_record "" recA [recB] 4 (by decide)
  exact ⟨h.1, by rw [h.2]; decide⟩

/-- C4 counterexample: at `limit = 0` the single-record fallback still
emits one record-summary line, so the output is not bounded by
`limit`. -/
theorem context_lines_limit_zero_cex :
    (contextLines "alpha" [recA] 0).length = 1 ∧
    build_dataset_context "alpha" [recA] 0 = "- alpha" := by
  decide

/-- C4 amended: for every dataset, query, and limit at least 1, the
context holds at most `limit` record-summary lines. -/
theorem context_lines_bounded (q : String) (ds : List Record) (limit : Nat)
    (h : 1 ≤ limit) :
    (contextLines q ds limit).length ≤ limit := by
  have hpick : ∀ l : List (Nat × Record), (pickTop limit l).length ≤ limit := by
    intro l
    cases l with
    | nil => exact Nat.zero_le limit
    | cons best rest =>
      simp only [pickTop]
      split
      · simpa using h
      · exact List.length_take_le _ _
  have hsel : (selectRecords q ds limit).length ≤ limit := by
    unfold selectRecords
    split
    · exact Nat.zero_le limit
    · exact hpick _
  unfold contextLines
  exact Nat.le_trans
    (Nat.le_trans (List.length_filter_le _ _)
      (Nat.le_of_eq (List.length_map _ _)))
    hsel

/-- C4 amended witness: query `"alpha"` against `[{source: "alpha"}]`
at limit 1. -/
theorem context_lines_bounded_wit :
    (contextLines "alpha" [recA] 1).length ≤ 1 :=
  context_lines_bounded "alpha" [recA] 1 (by decide)

/-- C10 counterexample: case invariance fails for non-ASCII queries.
The upper case of the query `"ß"` is `"SS"` (Unicode special casing),
and against the dataset `[{source: "ß"}]` the query `"ß"` selects the
record (`"- ß"`) while its upper-cased form `"SS"` matches nothing and
yields the empty context. -/
theorem case_invariance_unicode_cex :
    pyUpper "ß" = "SS" ∧
    build_dataset_context "ß" [recSharpS] 4 = "- ß" ∧
    build_dataset_context "SS" [recSharpS] 4 = "" ∧
    build_dataset_context (pyUpper "ß") [recSharpS] 4 ≠
      build_dataset_context "ß" [recSharpS] 4 := by
  decide

/-- C10 amended: for every dataset and limit, and every query made of
ASCII characters, `build_dataset_context` is invariant under
upper-casing the query, because `tokenize_text` lower-cases before
matching; for non-ASCII queries the invariance can fail (`"ß"` vs
`"SS"`). -/
theorem build_dataset_context_ascii_case_invariant (q : String) (ds : List Record)
    (limit : Nat) (h : ∀ c ∈ q.data, c.toNat ≤ 127) :
    build_dataset_context (pyUpper q) ds limit = build_dataset_context q ds limit := by
  have hsc : scoredCandidates (pyUpper q) ds = scoredCandidates q ds := by
    unfold scoredCandidates
    rw [tokenize_pyUpper q h]
  unfold build_dataset_context contextLines selectRecords
  rw [hsc]

/-- C10 amended witness: the ASCII query `"Alpha"` upper-cases to
`"ALPHA"` and selects the same context. -/
theorem build_dataset_context_ascii_case_invariant_wit :
    pyUpper "Alpha" = "ALPHA" ∧
    build_dataset_context (pyUpper "Alpha") [recA] 4 =
      build_dataset_context "Alpha" [recA] 4 :=
  ⟨by decide,
   build_dataset_context_ascii_case_invariant "Alpha" [recA] 4 (by decide)⟩

end App
